import Mathlib

/-!
Verification of the scientific_plotting repository's specification.

The repository is a collection of Python scripts that load CSV files,
validate required columns, and render charts with matplotlib.  This file
gives a shallow embedding of the parts of the code the specification's
claims are about:

* `check_and_load_csv` (src/utils/common_utils.py) — the CSV validator;
* the chart-creating functions (`create_basic_bar_chart`,
  `create_basic_scatter_plot`, `create_basic_histogram`,
  `create_3d_surface_plot`) — modelled as functions of an environment
  giving the state of the input file and the behavior of the external
  plotting-library calls;
* the ad-hoc grid reconstruction loop shared by the 3D surface,
  wireframe and contour scripts;
* the Pearson correlation computed by the basic scatter script;
* the orchestrator `run_all_plots.py`.

Numeric CSV cell values are modelled as rationals (the Python code
compares floats with `==`; the embedding uses exact values).
-/

namespace ScientificPlotting

/-! ## Python exceptions, data frames and input files -/

/-- Payload of a `ValueError` raised by `check_and_load_csv`
(src/utils/common_utils.py): either the missing-columns message built at
line 90 (carrying the `missing_columns` list), or the empty-file message
built at line 97 (carrying the path). -/
inductive ValueErrKind where
  | missingColumns (cols : List String)
  | emptyFile (path : String)
deriving DecidableEq, Repr

/-- The exception classes the embedded code can raise.  `nameError`
models Python's `NameError` on an undefined global; `emptyDataError`
models `pandas.errors.EmptyDataError`; `typeError` and `otherError`
stand for the exceptions an external library call can raise. -/
inductive PyExc where
  | fileNotFoundError (msg : String)
  | valueError (k : ValueErrKind)
  | emptyDataError (path : String)
  | nameError (n : String)
  | typeError (msg : String)
  | otherError (msg : String)
deriving DecidableEq, Repr

/-- A loaded pandas DataFrame, reduced to what the claims need: its
column names and its raw rows (cell texts, in file order). -/
structure Df where
  columns : List String
  rows : List (List String)
deriving DecidableEq, Repr

/-- The state of a CSV file on disk: absent, present but completely
empty (zero bytes — `pd.read_csv` raises `EmptyDataError`), or present
and parsing to a table. -/
inductive CsvFile where
  | absent
  | empty
  | table (df : Df)
deriving DecidableEq, Repr

/-- `pd.read_csv` on a path that exists: an empty file raises
`pandas.errors.EmptyDataError`, otherwise the parsed table is returned.
(The scripts only call it after an existence check, but the `absent`
case is mapped to the `FileNotFoundError` `open` would raise.) -/
def pd_read_csv (file : CsvFile) (path : String) : Except PyExc Df :=
  match file with
  | .absent => .error (.fileNotFoundError path)
  | .empty => .error (.emptyDataError path)
  | .table df => .ok df

/-- The required columns absent from `df`:
`[col for col in required_columns if col not in df.columns]`
(src/utils/common_utils.py line 79). -/
def missingColumnsOf (required_columns : List String) (df : Df) : List String :=
  required_columns.filter (fun c => !decide (c ∈ df.columns))

/-- `check_and_load_csv` (src/utils/common_utils.py lines 37-103): raise
`FileNotFoundError` if the path does not exist; load with `pd.read_csv`,
converting `EmptyDataError` to `ValueError` (lines 96-99) and re-raising
any other load error (lines 100-103); raise `ValueError` carrying the
missing-columns list when a required column is absent (lines 79-90);
otherwise return the loaded table (line 94). -/
def check_and_load_csv (file : CsvFile) (csv_path : String)
    (required_columns : List String) : Except PyExc Df :=
  if file = .absent then
    .error (.fileNotFoundError csv_path)
  else
    match pd_read_csv file csv_path with
    | .error (.emptyDataError _) => .error (.valueError (.emptyFile csv_path))
    | .error e => .error e
    | .ok df =>
      let missing_columns := missingColumnsOf required_columns df
      if missing_columns.isEmpty then .ok df
      else .error (.valueError (.missingColumns missing_columns))

/-! ## The grid reconstructor (3D surface / wireframe / contour plots)

src/3d_plot/code/3d_surface_plot.py lines 69-86 (the identical loop also
appears in 3d_wireframe_plot.py and 3d_contour_plot.py):

    x_unique = np.unique(x)
    y_unique = np.unique(y)
    X, Y = np.meshgrid(x_unique, y_unique)
    Z = np.zeros_like(X)
    for i, xi in enumerate(x_unique):
        for j, yi in enumerate(y_unique):
            mask = (data['x'] == xi) & (data['y'] == yi)
            if mask.any():
                Z[j, i] = data.loc[mask, 'z'].iloc[0]
            else:
                Z[j, i] = np.mean(z)
-/

/-- One (x, y, z) row of the 3D-plot source table. -/
structure Row3 where
  x : ℚ
  y : ℚ
  z : ℚ
deriving DecidableEq, Repr

/-- Insert a rational into an already sorted list, keeping it sorted. -/
def insertSorted (a : ℚ) : List ℚ → List ℚ
  | [] => [a]
  | b :: t => if a ≤ b then a :: b :: t else b :: insertSorted a t

/-- `np.unique`: the distinct values of the list, in ascending order. -/
def npUnique (l : List ℚ) : List ℚ :=
  l.dedup.foldr insertSorted []

/-- The `x_unique` array of the gridding loop. -/
def xUnique (rows : List Row3) : List ℚ :=
  npUnique (rows.map Row3.x)

/-- The `y_unique` array of the gridding loop. -/
def yUnique (rows : List Row3) : List ℚ :=
  npUnique (rows.map Row3.y)

/-- The rows matching one grid cell:
`mask = (data['x'] == xi) & (data['y'] == yi)`, in table row order. -/
def cellMatches (rows : List Row3) (xi yi : ℚ) : List Row3 :=
  rows.filter (fun s => decide (s.x = xi ∧ s.y = yi))

/-- `np.mean(z)` over all z values of the table. -/
def meanZ (rows : List Row3) : ℚ :=
  (rows.map Row3.z).sum / (rows.length : ℚ)

/-- The value the loop stores in `Z[j, i]` for the cell `(xi, yi)`:
the z of the first matching row if `mask.any()`, else the global mean. -/
def gridZ (rows : List Row3) (xi yi : ℚ) : ℚ :=
  match cellMatches rows xi yi with
  | [] => meanZ rows
  | r :: _ => r.z

/-- The reconstructed grid `Z`, row `j` (over `y_unique`) and column `i`
(over `x_unique`), so that the entry at outer index `j` and inner index
`i` is the code's `Z[j, i]`. -/
def reconstructGrid (rows : List Row3) : List (List ℚ) :=
  (yUnique rows).map (fun yi => (xUnique rows).map (fun xi => gridZ rows xi yi))

/-! ## Chart-creating functions

Each chart script defines one `create_*` function that returns `True` on
success and `False` on a handled failure.  The external plotting-library
calls (figure construction, axes drawing, `save_plot`) are collaborators
whose behavior is an input: `renderExc` is the exception the library
calls raise after a successful load, `none` when they all succeed.  A
`ChartRun` records the Python-level outcome: `result = .ok b` means the
function returned `b`, `result = .error e` means exception `e`
propagated to the caller; `saved` records whether `save_plot` ran. -/

/-- The environment a chart function runs in: the state of its input
CSV file and the behavior of the plotting-library calls. -/
structure PlotEnv where
  file : CsvFile
  renderExc : Option PyExc
deriving DecidableEq, Repr

/-- Outcome of calling a chart function: the returned boolean or the
propagated exception, plus whether the output image was saved. -/
structure ChartRun where
  result : Except PyExc Bool
  saved : Bool
deriving Repr

/-- Does `except (FileNotFoundError, ValueError)` catch exception `e`? -/
def catchesFnfVe : PyExc → Bool
  | .fileNotFoundError _ => true
  | .valueError _ => true
  | _ => false

/-- Body shared by the scripts that load through `check_and_load_csv`:
load and validate, run the library calls, then `save_plot`.  `.ok ()`
means the body ran to completion (so the image was saved). -/
def chartBody (env : PlotEnv) (csv_path : String)
    (required_columns : List String) : Except PyExc Unit :=
  match check_and_load_csv env.file csv_path required_columns with
  | .error e => .error e
  | .ok _ =>
    match env.renderExc with
    | some e => .error e
    | none => .ok ()

/-- `create_basic_bar_chart` (src/bar_chart/code/basic_bar_chart.py
lines 21-73): the body is wrapped in
`except (FileNotFoundError, ValueError): return False`; no other
exception class is handled, so any other exception propagates. -/
def create_basic_bar_chart (env : PlotEnv) : ChartRun :=
  match chartBody env "../data/basic_bar_data.csv" ["category", "value"] with
  | .ok () => { result := .ok true, saved := true }
  | .error e =>
    if catchesFnfVe e then { result := .ok false, saved := false }
    else { result := .error e, saved := false }

/-- `create_basic_scatter_plot` (src/scatter_plot/code/basic_scatter_plot.py
lines 21-78): same handler shape as the basic bar chart —
`except (FileNotFoundError, ValueError): return False` only. -/
def create_basic_scatter_plot (env : PlotEnv) : ChartRun :=
  match chartBody env "../data/basic_scatter_data.csv" ["x", "y"] with
  | .ok () => { result := .ok true, saved := true }
  | .error e =>
    if catchesFnfVe e then { result := .ok false, saved := false }
    else { result := .error e, saved := false }

/-- The module-level global names in scope inside
`create_basic_histogram` (src/histogram/code/basic_histogram.py): its
own imports (`sys`, `os`, `numpy as np`, `pandas as pd`,
`matplotlib.pyplot as plt`, `seaborn as sns`), the star import of
`common_utils` (whose public names are its imports `np`, `pd`, `plt`,
`sns`, `os`, `sys`, `Path` and its ten function definitions), and the
module's two own functions.  `scipy.stats` is never imported, so the
name `stats` is not in this list. -/
def basic_histogram_globals : List String :=
  ["sys", "os", "np", "pd", "plt", "sns", "Path",
   "set_scientific_style", "get_color_palette", "save_plot",
   "check_and_load_csv", "generate_sample_data",
   "create_figure_with_style", "generate_time_series_data",
   "generate_multiple_series_data", "generate_categorical_data",
   "generate_scatter_data", "generate_distribution_data",
   "create_basic_histogram", "main"]

/-- Python global-name resolution: looking up an undefined name raises
`NameError`. -/
def lookupGlobal (globals : List String) (n : String) : Except PyExc Unit :=
  if n ∈ globals then .ok () else .error (.nameError n)

/-- `create_basic_histogram` (src/histogram/code/basic_histogram.py
lines 21-99).  Body: existence check (line 44), `pd.read_csv` (line 48),
missing-column check (lines 50-52), the histogram/library calls
(lines 55-62, modelled by `renderExc`), then the lookup of the global
name `stats` at line 65 (`mu, sigma = stats.norm.fit(values)`), then
`save_plot` and `return True`.  Handlers: `except FileNotFoundError`
and a catch-all `except Exception`, both returning `False`. -/
def basicHistogramBody (env : PlotEnv) : Except PyExc Unit :=
  match pd_read_csv env.file "../data/basic_histogram_data.csv" with
  | .error e => .error e
  | .ok df =>
    let missing_columns := missingColumnsOf ["values"] df
    if missing_columns.isEmpty then
      match env.renderExc with
      | some e => .error e
      | none => lookupGlobal basic_histogram_globals "stats"
    else .error (.valueError (.missingColumns missing_columns))

/-- The `try` block of `create_basic_histogram` together with its two
handlers; see `basicHistogramBody` for the body. -/
def create_basic_histogram (env : PlotEnv) : ChartRun :=
  match basicHistogramBody env with
  | .ok () => { result := .ok true, saved := true }
  | .error _ => { result := .ok false, saved := false }

/-- `create_3d_surface_plot` (src/3d_plot/code/3d_surface_plot.py
lines 21-132).  Body: existence check (line 46), `pd.read_csv`
(line 50), missing-column check (lines 51-54), the gridding/rendering
calls (modelled by `renderExc`; exceptions inside the inner gridding
`try` fall back to a scatter plot and do not escape — `renderExc`
models an exception from the calls outside that inner `try`), then
`save_plot` and `return True`.  Handlers: `except FileNotFoundError`
and a catch-all `except Exception`, both returning `False`. -/
def surfacePlotBody (env : PlotEnv) : Except PyExc Unit :=
  match pd_read_csv env.file "../data/3d_surface_data.csv" with
  | .error e => .error e
  | .ok df =>
    let missing_columns := missingColumnsOf ["x", "y", "z"] df
    if missing_columns.isEmpty then
      match env.renderExc with
      | some e => .error e
      | none => .ok ()
    else .error (.valueError (.missingColumns missing_columns))

/-- The `try` block of `create_3d_surface_plot` together with its two
handlers; see `surfacePlotBody` for the body. -/
def create_3d_surface_plot (env : PlotEnv) : ChartRun :=
  match surfacePlotBody env with
  | .ok () => { result := .ok true, saved := true }
  | .error _ => { result := .ok false, saved := false }

/-- The script epilogue `sys.exit(0 if success else 1)`: exit code 0
when the chart function returned `True`; 1 when it returned `False`,
and also 1 when an exception propagated out of `main` (the interpreter
exits with code 1 on an uncaught exception). -/
def scriptExitCode (r : ChartRun) : Nat :=
  match r.result with
  | .ok true => 0
  | _ => 1

/-! ## Pearson correlation (basic scatter plot, line 60)

`correlation = np.corrcoef(df['x'], df['y'])[0, 1]`, i.e. the sample
covariance divided by the product of the sample standard deviations.
The embedding computes over ℚ; the square root is exact (returns
`some`) precisely when the variance has a rational square root, which
holds for the claimed input, where the floating-point computation is
also exact. -/

/-- The exact square root of a natural number, when it exists. -/
def natSqrtExact (n : Nat) : Option Nat :=
  (List.range (n + 1)).find? (fun s => s * s == n)

/-- The exact nonnegative rational square root, when it exists. -/
def ratSqrt (q : ℚ) : Option ℚ :=
  if q < 0 then none
  else
    match natSqrtExact q.num.toNat, natSqrtExact q.den with
    | some a, some b => some ((a : ℚ) / (b : ℚ))
    | _, _ => none

/-- Arithmetic mean of a list of rationals. -/
def listMean (l : List ℚ) : ℚ := l.sum / (l.length : ℚ)

/-- Sample covariance with the `n - 1` normalization `np.cov` uses
(the normalization cancels in the correlation coefficient). -/
def sampleCov (xs ys : List ℚ) : ℚ :=
  (((xs.zip ys).map
      (fun p => (p.1 - listMean xs) * (p.2 - listMean ys))).sum) /
    ((xs.length : ℚ) - 1)

/-- Sample variance. -/
def sampleVar (xs : List ℚ) : ℚ := sampleCov xs xs

/-- `np.corrcoef(x, y)[0, 1]`: covariance over the product of standard
deviations, defined when both standard deviations are rational. -/
def corrcoef (xs ys : List ℚ) : Option ℚ :=
  match ratSqrt (sampleVar xs), ratSqrt (sampleVar ys) with
  | some sx, some sy => some (sampleCov xs ys / (sx * sy))
  | _, _ => none

/-! ## The orchestrator (src/run_all_plots.py) -/

/-- Outcome of the `subprocess.run` call for one module: normal exit
with a code, `subprocess.TimeoutExpired`, or any other exception while
launching/running (e.g. a `chdir` failure). -/
inductive ProcOutcome where
  | exited (code : Nat)
  | timedOut
  | launchError (msg : String)
deriving DecidableEq, Repr

/-- `run_plotting_module` (src/run_all_plots.py lines 26-63): returns
`result.returncode == 0`; `except subprocess.TimeoutExpired` and
`except Exception` both return `False`. -/
def run_plotting_module (o : ProcOutcome) : Bool :=
  match o with
  | .exited code => code == 0
  | .timedOut => false
  | .launchError _ => false

/-- The `timeout=300` argument of `subprocess.run` (line 40). -/
def subprocessTimeout : Nat := 300

/-- The `time.sleep(1)` delay between modules (line 92). -/
def interScriptDelay : Nat := 1

/-- The `modules` list of `main` (src/run_all_plots.py lines 73-80):
(path, display name) pairs. -/
def plottingModules : List (String × String) :=
  [("line_chart/code/line_chart.py", "Line Charts (折线图)"),
   ("bar_chart/code/bar_chart.py", "Bar Charts (柱状图)"),
   ("scatter_plot/code/scatter_plot.py", "Scatter Plots (散点图)"),
   ("box_plot/code/box_plot.py", "Box Plots (箱线图)"),
   ("histogram/code/histogram.py", "Histograms (直方图)"),
   ("3d_plot/code/3d_plot.py", "3D Plots (三维图)")]

/-- One observable step of the orchestrator's main loop. -/
inductive OrchEvent where
  | runModule (path name : String) (timeout : Nat)
  | sleep (seconds : Nat)
deriving DecidableEq, Repr

/-- The `for module_path, module_name in modules:` loop of `main`
(lines 87-92): run each module as a subprocess (outcome given by the
`oracle`), record `(name, success)`, sleep, continue — unconditionally,
whatever the outcome.  Returns the event trace and the results list. -/
def mainLoop (oracle : String → ProcOutcome) :
    List (String × String) → List OrchEvent × List (String × Bool)
  | [] => ([], [])
  | (path, name) :: rest =>
    let success := run_plotting_module (oracle path)
    let r := mainLoop oracle rest
    (OrchEvent.runModule path name subprocessTimeout :: OrchEvent.sleep interScriptDelay :: r.1,
     (name, success) :: r.2)

/-- `main` of src/run_all_plots.py, restricted to its loop over the
module list. -/
def runAllPlots (oracle : String → ProcOutcome) :
    List OrchEvent × List (String × Bool) :=
  mainLoop oracle plottingModules

/-! ## Helper lemmas -/

/-- `getD` on a mapped list, at an index inside the list. -/
theorem getD_map {α β : Type} (f : α → β) (d : β) :
    ∀ (l : List α) (n : Nat) (h : n < l.length),
      (l.map f).getD n d = f (l.get ⟨n, h⟩)
  | _ :: _, 0, _ => rfl
  | _ :: t, n + 1, h => getD_map f d t n (Nat.lt_of_succ_lt_succ h)

/-- Indexing the reconstructed grid: entry `(j, i)` is the loop's
`Z[j, i]` value for the cell `(x_unique[i], y_unique[j])`. -/
theorem reconstructGrid_getD (rows : List Row3) (i j : Nat)
    (hi : i < (xUnique rows).length) (hj : j < (yUnique rows).length) :
    ((reconstructGrid rows).getD j []).getD i 0
      = gridZ rows ((xUnique rows).get ⟨i, hi⟩) ((yUnique rows).get ⟨j, hj⟩) := by
  unfold reconstructGrid
  rw [getD_map _ _ _ j hj, getD_map _ _ _ i hi]

/-- A row of the table with the cell's exact coordinates is among the
cell's matches. -/
theorem mem_cellMatches {rows : List Row3} {r : Row3} {xi yi : ℚ}
    (hr : r ∈ rows) (hx : r.x = xi) (hy : r.y = yi) :
    r ∈ cellMatches rows xi yi :=
  List.mem_filter.mpr ⟨hr, by simp [hx, hy]⟩

/-- If the cell has matches, `Z[j, i]` is the first match's z value. -/
theorem gridZ_of_matches {rows : List Row3} {xi yi : ℚ} {r : Row3}
    {rest : List Row3} (h : cellMatches rows xi yi = r :: rest) :
    gridZ rows xi yi = r.z := by
  unfold gridZ
  rw [h]

/-- If the cell has no match, `Z[j, i]` is the global mean. -/
theorem gridZ_of_no_match {rows : List Row3} {xi yi : ℚ}
    (h : ∀ r ∈ rows, ¬(r.x = xi ∧ r.y = yi)) :
    gridZ rows xi yi = meanZ rows := by
  have hnil : cellMatches rows xi yi = [] := by
    apply List.filter_eq_nil_iff.mpr
    intro a ha
    simpa using h a ha
  unfold gridZ
  rw [hnil]

/-- Membership in the missing-columns list. -/
theorem mem_missingColumnsOf {required : List String} {df : Df} {c : String} :
    c ∈ missingColumnsOf required df ↔ c ∈ required ∧ c ∉ df.columns := by
  unfold missingColumnsOf
  simp [List.mem_filter]

/-- When every required column is present, the missing-columns list is
empty. -/
theorem missingColumnsOf_eq_nil {required : List String} {df : Df}
    (h : ∀ c ∈ required, c ∈ df.columns) :
    missingColumnsOf required df = [] := by
  apply List.filter_eq_nil_iff.mpr
  intro c hc
  simp [h c hc]

/-- `check_and_load_csv` on a table with all required columns returns
the table. -/
theorem check_and_load_csv_ok {df : Df} {csv_path : String}
    {required : List String} (h : ∀ c ∈ required, c ∈ df.columns) :
    check_and_load_csv (.table df) csv_path required = .ok df := by
  unfold check_and_load_csv pd_read_csv
  simp [missingColumnsOf_eq_nil h]

/-- `check_and_load_csv` on a table lacking a required column raises
`ValueError` carrying the missing-columns list. -/
theorem check_and_load_csv_missing {df : Df} {csv_path : String}
    {required : List String} (h : missingColumnsOf required df ≠ []) :
    check_and_load_csv (.table df) csv_path required
      = .error (.valueError (.missingColumns (missingColumnsOf required df))) := by
  unfold check_and_load_csv pd_read_csv
  simp [List.isEmpty_iff, h]

/-! ## Claim theorems -/

/-- C1 — Grid reconstructor round-trip: for an input that is a
fully-populated rectangular grid of (x, y, z) triples (every pair of a
unique x value and a unique y value matches exactly one row of the
data), the reconstructed grid satisfies `Z[j, i] = r.z` for the row `r`
whose coordinates are `(x_unique[i], y_unique[j])`. -/
theorem grid_roundtrip (rows : List Row3)
    (hfull : ∀ (i : Nat) (hi : i < (xUnique rows).length)
      (j : Nat) (hj : j < (yUnique rows).length),
      (cellMatches rows ((xUnique rows).get ⟨i, hi⟩)
        ((yUnique rows).get ⟨j, hj⟩)).length = 1)
    (i : Nat) (hi : i < (xUnique rows).length)
    (j : Nat) (hj : j < (yUnique rows).length)
    (r : Row3) (hr : r ∈ rows)
    (hx : r.x = (xUnique rows).get ⟨i, hi⟩)
    (hy : r.y = (yUnique rows).get ⟨j, hj⟩) :
    ((reconstructGrid rows).getD j []).getD i 0 = r.z := by
  rw [reconstructGrid_getD rows i j hi hj]
  obtain ⟨a, ha⟩ := List.length_eq_one.mp (hfull i hi j hj)
  have hmem : r ∈ cellMatches rows ((xUnique rows).get ⟨i, hi⟩)
      ((yUnique rows).get ⟨j, hj⟩) := mem_cellMatches hr hx hy
  rw [ha] at hmem
  rw [gridZ_of_matches ha, List.mem_singleton.mp hmem]

/-- C1 witness: the 2 × 2 grid
`[(0,0,10), (1,0,20), (0,1,30), (1,1,40)]` reconstructs `Z[0, 1] = 20`,
the z value of the row at `(x_unique[1], y_unique[0]) = (1, 0)`. -/
theorem grid_roundtrip_witness :
    ((reconstructGrid
        [⟨0, 0, 10⟩, ⟨1, 0, 20⟩, ⟨0, 1, 30⟩, ⟨1, 1, 40⟩]).getD 0 []).getD 1 0
      = (20 : ℚ) :=
  grid_roundtrip [⟨0, 0, 10⟩, ⟨1, 0, 20⟩, ⟨0, 1, 30⟩, ⟨1, 1, 40⟩]
    (by decide) 1 (by decide) 0 (by decide) ⟨1, 0, 20⟩
    (by decide) (by decide) (by decide)

/-- C4 — Grid reconstructor fallback: a grid cell
`(x_unique[i], y_unique[j])` matched by no row of the source data is
filled with the arithmetic mean of all z values of the dataset. -/
theorem grid_missing_cell_mean (rows : List Row3)
    (i : Nat) (hi : i < (xUnique rows).length)
    (j : Nat) (hj : j < (yUnique rows).length)
    (hnone : ∀ r ∈ rows,
      ¬(r.x = (xUnique rows).get ⟨i, hi⟩ ∧ r.y = (yUnique rows).get ⟨j, hj⟩)) :
    ((reconstructGrid rows).getD j []).getD i 0
      = (rows.map Row3.z).sum / (rows.length : ℚ) := by
  rw [reconstructGrid_getD rows i j hi hj, gridZ_of_no_match hnone]
  rfl

/-- C4 witness: for the incomplete grid `[(0,0,1), (1,1,3)]` the cell
`(x_unique[1], y_unique[0]) = (1, 0)` has no matching row and is filled
with the global mean `(1 + 3) / 2 = 2`. -/
theorem grid_missing_cell_mean_witness :
    ((reconstructGrid [⟨0, 0, 1⟩, ⟨1, 1, 3⟩]).getD 0 []).getD 1 0 = (2 : ℚ) := by
  rw [grid_missing_cell_mean [⟨0, 0, 1⟩, ⟨1, 1, 3⟩] 1 (by decide) 0 (by decide)
    (by decide)]
  norm_num

/-- C5 — Grid reconstructor tie-break: when more than one row matches a
grid cell exactly, the reconstructed value is the z of the first such
row in table row order (`data.loc[mask, 'z'].iloc[0]`). -/
theorem grid_tiebreak (rows : List Row3)
    (i : Nat) (hi : i < (xUnique rows).length)
    (j : Nat) (hj : j < (yUnique rows).length)
    (r : Row3) (rest : List Row3)
    (hmatch : cellMatches rows ((xUnique rows).get ⟨i, hi⟩)
        ((yUnique rows).get ⟨j, hj⟩) = r :: rest)
    (_hmulti : rest ≠ []) :
    ((reconstructGrid rows).getD j []).getD i 0 = r.z := by
  rw [reconstructGrid_getD rows i j hi hj, gridZ_of_matches hmatch]

/-- C5 witness: the table `[(0,0,5), (0,0,7)]` has two rows matching the
cell `(0, 0)`; the reconstructed value is the first row's z, namely 5. -/
theorem grid_tiebreak_witness :
    ((reconstructGrid [⟨0, 0, 5⟩, ⟨0, 0, 7⟩]).getD 0 []).getD 0 0 = (5 : ℚ) :=
  grid_tiebreak [⟨0, 0, 5⟩, ⟨0, 0, 7⟩] 0 (by decide) 0 (by decide)
    ⟨0, 0, 5⟩ [⟨0, 0, 7⟩] (by decide) (by decide)

/-- C3 counterexample — the claimed contract of `check_and_load_csv`
("FileNotFoundError when the path does not exist; ValueError naming
exactly the absent required columns when a required column is missing;
otherwise returns the loaded table") fails on an existing but completely
empty CSV file: the function raises a `ValueError` whose message reports
an empty file (src/utils/common_utils.py lines 96-99), which names no
columns, and no table is returned. -/
theorem check_and_load_csv_empty_cex :
    check_and_load_csv CsvFile.empty "../data/basic_bar_data.csv"
        ["category", "value"]
      = .error (.valueError (.emptyFile "../data/basic_bar_data.csv"))
    ∧ ValueErrKind.emptyFile "../data/basic_bar_data.csv"
        ≠ ValueErrKind.missingColumns ["category", "value"] :=
  ⟨rfl, by decide⟩

/-- C3 (amended) — `check_and_load_csv` contract: raises
`FileNotFoundError` when the path does not exist; raises `ValueError`
reporting an empty file when the path exists but the file is empty;
raises `ValueError` carrying exactly the required columns absent from
the loaded table when the file parses and a required column is missing;
otherwise returns the loaded table unchanged. -/
theorem check_and_load_csv_contract (file : CsvFile) (csv_path : String)
    (required : List String) :
    (file = .absent →
      check_and_load_csv file csv_path required
        = .error (.fileNotFoundError csv_path))
    ∧ (file = .empty →
      check_and_load_csv file csv_path required
        = .error (.valueError (.emptyFile csv_path)))
    ∧ (∀ df, file = .table df → missingColumnsOf required df ≠ [] →
      ∃ missing,
        check_and_load_csv file csv_path required
          = .error (.valueError (.missingColumns missing))
        ∧ ∀ c, c ∈ missing ↔ c ∈ required ∧ c ∉ df.columns)
    ∧ (∀ df, file = .table df → (∀ c ∈ required, c ∈ df.columns) →
      check_and_load_csv file csv_path required = .ok df) := by
  refine ⟨fun h => ?_, fun h => ?_, fun df h hmiss => ?_, fun df h hcols => ?_⟩
  · subst h; rfl
  · subst h; rfl
  · subst h
    exact ⟨missingColumnsOf required df, check_and_load_csv_missing hmiss,
      fun c => mem_missingColumnsOf⟩
  · subst h
    exact check_and_load_csv_ok hcols

/-- C3 witness: a table with columns `category` only, checked against
required columns `category, value`, yields a `ValueError` whose
missing-columns list contains `value` and not `category`; a table with
both columns is returned unchanged. -/
theorem check_and_load_csv_contract_witness :
    (∃ missing,
      check_and_load_csv (.table { columns := ["category"], rows := [] })
          "../data/basic_bar_data.csv" ["category", "value"]
        = .error (.valueError (.missingColumns missing))
      ∧ ∀ c, c ∈ missing ↔ c ∈ ["category", "value"]
          ∧ c ∉ ["category"])
    ∧ check_and_load_csv
        (.table { columns := ["category", "value"], rows := [["A", "10"]] })
        "../data/basic_bar_data.csv" ["category", "value"]
      = .ok { columns := ["category", "value"], rows := [["A", "10"]] } :=
  ⟨(check_and_load_csv_contract _ _ _).2.2.1
      { columns := ["category"], rows := [] } rfl (by decide),
    (check_and_load_csv_contract _ _ _).2.2.2
      { columns := ["category", "value"], rows := [["A", "10"]] } rfl
      (by decide)⟩

/-- C2 counterexample — the claim that every chart-creating function
catches any exception other than the missing-file and missing-column
conditions fails on `create_basic_scatter_plot`: its only handler is
`except (FileNotFoundError, ValueError)`
(src/scatter_plot/code/basic_scatter_plot.py line 74), so a `TypeError`
raised by the library calls on malformed numeric data propagates to the
caller. -/
theorem scatter_uncaught_exception_cex :
    (create_basic_scatter_plot
      { file := CsvFile.table { columns := ["x", "y"], rows := [["a", "b"]] },
        renderExc := some (PyExc.typeError "could not convert string to float") }).result
      = .error (PyExc.typeError "could not convert string to float") := rfl

/-- C2 (amended) — exception policy of the chart-creating functions:
`create_basic_histogram` and `create_3d_surface_plot` have a catch-all
`except Exception` handler, so no exception propagates from them;
`create_basic_scatter_plot` and `create_basic_bar_chart` catch only
`FileNotFoundError` and `ValueError` (converting them to a `False`
return), and any other exception — e.g. one raised by the library calls
on malformed numeric data — propagates to the caller. -/
theorem chart_exception_policy :
    (∀ env, (create_basic_histogram env).result.isOk = true)
    ∧ (∀ env, (create_3d_surface_plot env).result.isOk = true)
    ∧ (∀ env e, (create_basic_scatter_plot env).result = .error e →
        catchesFnfVe e = false)
    ∧ (∀ env e, (create_basic_bar_chart env).result = .error e →
        catchesFnfVe e = false)
    ∧ (∀ df e, catchesFnfVe e = false →
        (∀ c ∈ ["x", "y"], c ∈ df.columns) →
        (create_basic_scatter_plot
          { file := .table df, renderExc := some e }).result = .error e)
    ∧ (∀ df e, catchesFnfVe e = false →
        (∀ c ∈ ["category", "value"], c ∈ df.columns) →
        (create_basic_bar_chart
          { file := .table df, renderExc := some e }).result = .error e) := by
  refine ⟨fun env => ?_, fun env => ?_, fun env e h => ?_, fun env e h => ?_,
    fun df e hcat hcols => ?_, fun df e hcat hcols => ?_⟩
  · cases hb : basicHistogramBody env with
    | ok u => cases u; simp [create_basic_histogram, hb, Except.isOk, Except.toBool]
    | error e => simp [create_basic_histogram, hb, Except.isOk, Except.toBool]
  · cases hb : surfacePlotBody env with
    | ok u => cases u; simp [create_3d_surface_plot, hb, Except.isOk, Except.toBool]
    | error e => simp [create_3d_surface_plot, hb, Except.isOk, Except.toBool]
  · unfold create_basic_scatter_plot at h
    cases hb : chartBody env "../data/basic_scatter_data.csv" ["x", "y"] with
    | ok u => cases u; rw [hb] at h; simp at h
    | error e2 =>
      rw [hb] at h
      by_cases hc : catchesFnfVe e2 = true
      · simp [hc] at h
      · simp [hc] at h
        rw [← h]
        simpa using hc
  · unfold create_basic_bar_chart at h
    cases hb : chartBody env "../data/basic_bar_data.csv" ["category", "value"] with
    | ok u => cases u; rw [hb] at h; simp at h
    | error e2 =>
      rw [hb] at h
      by_cases hc : catchesFnfVe e2 = true
      · simp [hc] at h
      · simp [hc] at h
        rw [← h]
        simpa using hc
  · have hload := @check_and_load_csv_ok df "../data/basic_scatter_data.csv"
      ["x", "y"] hcols
    simp [create_basic_scatter_plot, chartBody, hload, hcat]
  · have hload := @check_and_load_csv_ok df "../data/basic_bar_data.csv"
      ["category", "value"] hcols
    simp [create_basic_bar_chart, chartBody, hload, hcat]

/-- C2 witness: a well-formed table whose `value` column holds text
makes the bar-drawing call raise `TypeError`, which
`create_basic_bar_chart` does not catch. -/
theorem chart_exception_policy_witness :
    (create_basic_bar_chart
      { file := CsvFile.table
          { columns := ["category", "value"], rows := [["A", "oops"]] },
        renderExc := some (PyExc.typeError "unsupported operand") }).result
      = .error (PyExc.typeError "unsupported operand") :=
  chart_exception_policy.2.2.2.2.2
    { columns := ["category", "value"], rows := [["A", "oops"]] }
    (PyExc.typeError "unsupported operand") (by decide) (by decide)

/-- C6 — missing input file: when a chart script's required CSV file
does not exist, the chart function returns `False`, the script exits
with code 1, and the output image is never saved — for each of the four
embedded chart scripts, whatever the plotting library would have
done. -/
theorem missing_csv_fails (env : PlotEnv) (h : env.file = CsvFile.absent) :
    ((create_basic_bar_chart env).result = .ok false
      ∧ (create_basic_bar_chart env).saved = false
      ∧ scriptExitCode (create_basic_bar_chart env) = 1)
    ∧ ((create_basic_scatter_plot env).result = .ok false
      ∧ (create_basic_scatter_plot env).saved = false
      ∧ scriptExitCode (create_basic_scatter_plot env) = 1)
    ∧ ((create_basic_histogram env).result = .ok false
      ∧ (create_basic_histogram env).saved = false
      ∧ scriptExitCode (create_basic_histogram env) = 1)
    ∧ ((create_3d_surface_plot env).result = .ok false
      ∧ (create_3d_surface_plot env).saved = false
      ∧ scriptExitCode (create_3d_surface_plot env) = 1) := by
  obtain ⟨file, re⟩ := env
  cases h
  exact ⟨⟨rfl, rfl, rfl⟩, ⟨rfl, rfl, rfl⟩, ⟨rfl, rfl, rfl⟩, ⟨rfl, rfl, rfl⟩⟩

/-- C6 witness: with the bar chart's CSV absent the function returns
`False` and no image is saved; the surface-plot script exits with
code 1. -/
theorem missing_csv_fails_witness :
    (create_basic_bar_chart { file := CsvFile.absent, renderExc := none }).result
        = .ok false
    ∧ (create_basic_bar_chart { file := CsvFile.absent, renderExc := none }).saved
        = false
    ∧ scriptExitCode
        (create_3d_surface_plot { file := CsvFile.absent, renderExc := none })
        = 1 :=
  ⟨(missing_csv_fails { file := CsvFile.absent, renderExc := none } rfl).1.1,
   (missing_csv_fails { file := CsvFile.absent, renderExc := none } rfl).1.2.1,
   (missing_csv_fails { file := CsvFile.absent, renderExc := none } rfl).2.2.2.2.2⟩

/-- C7 — orchestrator progress: whatever each subprocess does, `main`
runs every module of its list exactly once, in list order, each as a
subprocess with the fixed 300-second timeout followed by the fixed
1-second delay; no outcome of one module prevents the remaining modules
from being run. -/
theorem orchestrator_runs_all (oracle : String → ProcOutcome) :
    (runAllPlots oracle).1
      = (plottingModules.map (fun m =>
          [OrchEvent.runModule m.1 m.2 subprocessTimeout,
           OrchEvent.sleep interScriptDelay])).flatten
    ∧ (runAllPlots oracle).2.map Prod.fst = plottingModules.map Prod.snd
    ∧ (runAllPlots oracle).2.length = plottingModules.length :=
  ⟨rfl, rfl, rfl⟩

/-- C8 — for the dataset `x = [1, 2, 3]`, `y = [2, 4, 6]`, the Pearson
correlation coefficient computed by the basic scatter script
(`np.corrcoef(df['x'], df['y'])[0, 1]`, line 60 of
src/scatter_plot/code/basic_scatter_plot.py) is exactly 1. -/
theorem basic_scatter_pearson : corrcoef [1, 2, 3] [2, 4, 6] = some 1 := by
  have hx : sampleVar [1, 2, 3] = 1 := by
    norm_num [sampleVar, sampleCov, listMean]
  have hy : sampleVar [2, 4, 6] = 4 := by
    norm_num [sampleVar, sampleCov, listMean]
  have hc : sampleCov [1, 2, 3] [2, 4, 6] = 2 := by
    norm_num [sampleCov, listMean]
  have h1 : ratSqrt 1 = some 1 := by
    rw [show ratSqrt 1 = some ((1 : ℚ) / (1 : ℚ)) from rfl]
    norm_num
  have h4 : ratSqrt 4 = some 2 := by
    rw [show ratSqrt 4 = some ((2 : ℚ) / (1 : ℚ)) from rfl]
    norm_num
  unfold corrcoef
  rw [hx, hy, h1, h4, hc]
  norm_num

/-- C9 — the standalone basic histogram script can never succeed: for
every existing input CSV that parses and contains the required `values`
column, `create_basic_histogram` returns `False` and saves no image —
if the library calls succeed, the reference to the never-imported
global name `stats` at line 65 raises `NameError`, and every exception
is converted to `False` by the handlers. -/
theorem basic_histogram_never_succeeds (env : PlotEnv) (df : Df)
    (hfile : env.file = CsvFile.table df) (hcol : "values" ∈ df.columns) :
    (create_basic_histogram env).result = .ok false
    ∧ (create_basic_histogram env).saved = false := by
  obtain ⟨file, re⟩ := env
  cases hfile
  have hmiss : missingColumnsOf ["values"] df = [] :=
    missingColumnsOf_eq_nil (by simpa using hcol)
  have hbody : ∃ e,
      basicHistogramBody { file := .table df, renderExc := re } = .error e := by
    cases re with
    | some e => exact ⟨e, by simp [basicHistogramBody, pd_read_csv, hmiss]⟩
    | none =>
      refine ⟨.nameError "stats", ?_⟩
      simp [basicHistogramBody, pd_read_csv, hmiss, lookupGlobal,
        basic_histogram_globals]
  obtain ⟨e, he⟩ := hbody
  simp [create_basic_histogram, he]

/-- C9 witness: a present, well-formed `values` CSV with succeeding
library calls still yields a `False` return. -/
theorem basic_histogram_never_succeeds_witness :
    (create_basic_histogram
      { file := CsvFile.table { columns := ["values"], rows := [["23.5"]] },
        renderExc := none }).result = .ok false :=
  (basic_histogram_never_succeeds
    { file := CsvFile.table { columns := ["values"], rows := [["23.5"]] },
      renderExc := none }
    { columns := ["values"], rows := [["23.5"]] } rfl (by decide)).1

/-- C10 — an existing but completely empty CSV file is a third failure
kind at the public interface: `check_and_load_csv` converts the pandas
empty-data error into a `ValueError` (distinct from the
`FileNotFoundError` of a missing file and from the missing-columns
`ValueError` payload), and a chart function using it — here
`create_basic_bar_chart` — returns the boolean failure `False`. -/
theorem empty_csv_third_failure (csv_path : String) (required : List String)
    (re : Option PyExc) :
    check_and_load_csv CsvFile.empty csv_path required
      = .error (.valueError (.emptyFile csv_path))
    ∧ (create_basic_bar_chart { file := CsvFile.empty, renderExc := re }).result
        = .ok false
    ∧ (∀ cols, ValueErrKind.emptyFile csv_path
        ≠ ValueErrKind.missingColumns cols)
    ∧ (∀ msg, PyExc.valueError (ValueErrKind.emptyFile csv_path)
        ≠ PyExc.fileNotFoundError msg) :=
  ⟨rfl, rfl, fun _ h => ValueErrKind.noConfusion h,
    fun _ h => PyExc.noConfusion h⟩

/-- C10 witness: the empty-file failure at the bar chart's concrete
path and required columns. -/
theorem empty_csv_third_failure_witness :
    check_and_load_csv CsvFile.empty "../data/empty.csv" ["category", "value"]
      = .error (.valueError (.emptyFile "../data/empty.csv"))
    ∧ (create_basic_bar_chart { file := CsvFile.empty, renderExc := none }).result
        = .ok false :=
  ⟨(empty_csv_third_failure "../data/empty.csv" ["category", "value"] none).1,
   (empty_csv_third_failure "../data/empty.csv" ["category", "value"] none).2.1⟩

/-- C7 witness: even when every subprocess exits with a non-zero code,
all six modules are attempted, in order. -/
theorem orchestrator_runs_all_witness :
    (runAllPlots (fun _ => ProcOutcome.exited 1)).2.map Prod.fst
      = plottingModules.map Prod.snd :=
  (orchestrator_runs_all (fun _ => ProcOutcome.exited 1)).2.1

end ScientificPlotting
